import Mathlib

/-
Verification of the MFS embedded file-service server (src/main.cpp) against
its natural-language specification.

Shallow-embedding conventions, fixed once for the whole development:

* Machine integers.  `unsigned int` / `unsigned long long` values are
  modelled as `Nat`; wire bytes are `Nat` values in `0..255`.  Where the
  C code can overflow or wrap (the 32-bit shifts in `read_headers`) the
  reduction modulo `2^32 = 4294967296` is written explicitly.

* `char` is modelled as signed, the default on the gcc/x86 and AVR targets
  this MCU library is written for (the source mentions the Arduino
  `millis()` function).  Consequently the cast `(unsigned int)buffer[i]`
  in `read_headers` sign-extends a byte `b ≥ 128` to `0xFFFFFF00 + b`;
  this is modelled faithfully by `sext8`.

* Buffers and pointers.  A `char*` buffer is modelled by the list of byte
  values it holds.  A possibly-NULL pointer is an `Option (List Nat)`;
  `none` is the NULL pointer.  Out-of-range reads are modelled with
  `List.getD`, default 0; every in-contract use of the server stays inside
  the modelled buffer.

* The transport callbacks.  The input side of one client's connection is a
  single byte list `stream`; `read(client, buf, n)` succeeds iff `n` bytes
  remain and consumes them (the callbacks block until their byte-count
  contract is met).  A short stream models a failing read.  The output
  side `wire` records every byte written; writes are modelled as always
  succeeding (the write callback's blocking contract), so the
  write-failure drop paths of the source are never taken in this model.
  `close(client)` is recorded by the `dropped` flag.

* The clock.  The two `millis()` calls made during one `serve_clients`
  visit of a slot are modelled by a single tick time `now`.

* File handlers.  `fread_t` / `fwrite_t` are modelled as optional Lean
  functions; a NULL handler is `none`, and calling it (undefined behaviour
  in C) is recorded as a `nullHandlerCalled` event with no response sent.
-/

namespace Mfs

/-- Opcode constants of the protocol (the `#define`s at the top of the
source): NOOP=0, READ=1, WRITE=2, LS=3, ERROR=4; `RESPONSE_OF x = x | 0x80`
and the reserved-range bound 30. -/
def OP_NOOP : Nat := 0

def OP_READ : Nat := 1

def OP_WRITE : Nat := 2

def OP_LS : Nat := 3

def OP_ERROR : Nat := 4

def MFS_RESERVED_OP_RANGE : Nat := 30

def RESPONSE_OF (x : Nat) : Nat := x ||| 0x80

/-- `mfs_message_t`: sizes and opcode plus the two possibly-NULL body
pointers, a pointer being modelled by the pointed-to byte list. -/
structure MfsMessage where
  psize : Nat
  dsize : Nat
  op : Nat
  path : Option (List Nat)
  data : Option (List Nat)
deriving DecidableEq, Repr

/-- `mfs_file_t`: a registered file slot.  `path` is the (possibly NULL)
name buffer, `path_size` the size of that buffer (not the string length).
The reader/writer callbacks are optional functions, `none` being NULL. -/
structure MfsFile where
  path : Option (List Nat)
  path_size : Nat
  writer_f : Option (MfsMessage → MfsMessage)
  reader_f : Option (MfsMessage → MfsMessage)

/-- `client_handlers_t`: one client slot of the client table; `client = 0`
means the slot is empty. -/
structure ClientSlot where
  client : Nat
  timer_end : Nat
deriving DecidableEq, Repr

/-- The server fields relevant to one client visit: buffer capacities, the
hard limit and timeout, and the file table. -/
structure MfsServerCfg where
  path_bsize : Nat
  data_bsize : Nat
  hard_limit : Nat
  timer_ms : Nat
  files : List MfsFile

/-- Observable events of one visit: which file handler was invoked, and
whether a NULL handler pointer was called (undefined behaviour in C). -/
inductive REvent where
  | readerCalled (i : Nat)
  | writerCalled (i : Nat)
  | nullHandlerCalled (i : Nat)
deriving DecidableEq, Repr

/-- The mutable state touched while serving one client: the unread input
stream, the bytes written out so far, the two shared scratch buffers, the
close-callback flag and the handler events. -/
structure IOState where
  stream : List Nat
  wire : List Nat
  pathBuf : List Nat
  dataBuf : List Nat
  dropped : Bool
  events : List REvent
deriving DecidableEq, Repr

/-- `drop_client`: the close callback is invoked and the slot cleared;
only the flag is tracked here, the caller clears the slot. -/
def dropClient (s : IOState) : IOState := { s with dropped := true }

/-- Record a file-handler event. -/
def recordEvent (e : REvent) (s : IOState) : IOState :=
  { s with events := s.events ++ [e] }

/-- The `(unsigned int)` cast applied to a signed `char` holding byte `b`:
bytes `≥ 128` are sign-extended with `0xFFFFFF00`. -/
def sext8 (b : Nat) : Nat := if b < 128 then b else 4294967040 + b

/-- The three header fields `read_headers` fills in. -/
structure HeaderFields where
  psize : Nat
  dsize : Nat
  op : Nat
deriving DecidableEq, Repr

/-- `read_headers`: decode the 9-byte header buffer.  Each byte is read
through the signed-char cast `sext8` and OR-ed into place; the 32-bit
shifts reduce modulo `2^32` as the C `unsigned int` arithmetic does. -/
def read_headers (buffer : List Nat) : HeaderFields :=
  { psize :=
      sext8 (buffer.getD 0 0) |||
      ((sext8 (buffer.getD 1 0) <<< 8) % 4294967296) |||
      ((sext8 (buffer.getD 2 0) <<< 16) % 4294967296) |||
      ((sext8 (buffer.getD 3 0) <<< 24) % 4294967296)
    dsize :=
      sext8 (buffer.getD 4 0) |||
      ((sext8 (buffer.getD 5 0) <<< 8) % 4294967296) |||
      ((sext8 (buffer.getD 6 0) <<< 16) % 4294967296) |||
      ((sext8 (buffer.getD 7 0) <<< 24) % 4294967296)
    op := buffer.getD 8 0 }

/-- `fill_headers`: encode `psize`, `dsize`, `op` into the 9 header bytes,
little-endian; `(x >> 8k) & 0xFF` is written `x / 2^8k % 256`. -/
def fill_headers (psize dsize op : Nat) : List Nat :=
  [psize % 256, psize / 256 % 256, psize / 65536 % 256, psize / 16777216 % 256,
   dsize % 256, dsize / 256 % 256, dsize / 65536 % 256, dsize / 16777216 % 256,
   op % 256]

/-- The scan of `strlen`, written with the number of indices still to
visit as the structurally decreasing argument: `scanNul buf idx r` visits
indices `idx, idx+1, …, idx+r-1` and returns the first one holding a zero
byte, or `idx + r` when none does (the loop counter `len` of the source
reaching `buf_size`). -/
def scanNul (buf : List Nat) : Nat → Nat → Nat
  | idx, 0 => idx
  | idx, remaining + 1 =>
    if buf.getD idx 0 = 0 then idx else scanNul buf (idx + 1) remaining

/-- `strlen`: length of the C string in `buf`, scanning at most `buf_size`
bytes; returns 0 when no terminator is found within `buf_size` bytes. -/
def strlen (buf : List Nat) (buf_size : Nat) : Nat :=
  let len := scanNul buf 0 buf_size
  if len = buf_size then 0 else len

/-- The source's `memcmp`: 1 when the sizes differ or some byte differs,
0 when the `buf1_size` bytes coincide. -/
def memcmp (buf1 buf2 : List Nat) (buf1_size buf2_size : Nat) : Nat :=
  if buf1_size ≠ buf2_size then 1
  else if (List.range buf1_size).all (fun i => buf1.getD i 0 == buf2.getD i 0) then 0
  else 1

/-- The file-table scan of `get_file_index`, carrying the index of the
slot currently visited: the first slot whose name compares equal (same
string length and same bytes) yields its index, otherwise -1. -/
def file_scan (path : List Nat) (psize : Nat) : List MfsFile → Nat → Int
  | [], _ => -1
  | f :: rest, i =>
    if memcmp path (f.path.getD []) psize (strlen (f.path.getD []) f.path_size) = 0 then
      (i : Int)
    else file_scan path psize rest (i + 1)

/-- `get_file_index`: reject a path holding a zero byte within its `psize`
prefix, otherwise scan the file table linearly. -/
def get_file_index (files : List MfsFile) (path : List Nat) (psize : Nat) : Int :=
  if (List.range psize).any (fun i => path.getD i 0 == 0) then -1
  else file_scan path psize files 0

/-- The `empty_error_msg` sentinel of `read_mfs_message`: all numeric
fields 0 except `op = RESPONSE_OF(OP_ERROR) = 0x84`, both pointers NULL. -/
def empty_error_msg : MfsMessage :=
  { psize := 0, dsize := 0, op := 132, path := none, data := none }

/-- The NOOP-response skeleton built at the top of `serve_clients`:
everything 0 except `op = RESPONSE_OF(OP_NOOP) = 0x80`. -/
def noop_response : MfsMessage :=
  { psize := 0, dsize := 0, op := 128, path := none, data := none }

/-- `send_mfs_message`: write the 9 header bytes, then `psize` bytes of
path, then `dsize` bytes of data.  The write callback is modelled as
always delivering, so the short-write drop paths are not taken. -/
def send_mfs_message (msg : MfsMessage) (s : IOState) : IOState :=
  { s with wire := s.wire ++ fill_headers msg.psize msg.dsize msg.op
        ++ (msg.path.getD []).take msg.psize
        ++ (msg.data.getD []).take msg.dsize }

/-- `send_mfs_error`: on a local copy of `msg` set `op = 0x84`,
`dsize = 2`, point `data` at the shared data buffer after writing the
error code little-endian into its first two bytes; path is echoed. -/
def send_mfs_error (msg : MfsMessage) (code : Nat) (s : IOState) : IOState :=
  let s1 := { s with
    dataBuf := (((s.dataBuf.set 0 0).set 1 0).set 0 (code % 256)).set 1 (code / 256 % 256) }
  send_mfs_message { msg with op := 132, dsize := 2, data := some s1.dataBuf } s1

/-- The data-consume loop of `read_mfs_message`'s oversize branch: read
chunks of at most `data_bsize` bytes into the data buffer until `dsize`
bytes are consumed; a short read drops the client and exits the loop.
The first argument is structural fuel; every iteration consumes a nonzero
chunk, so fuel `dsize` covers every terminating run, and `none` arises
exactly for the run the C loop never finishes (`data_bsize = 0` with
bytes remaining, where the loop makes no progress). -/
def drainData (cfg : MfsServerCfg) (dsize : Nat) : Nat → Nat → IOState → Option IOState
  | 0, processed, s => if processed < dsize then none else some s
  | fuel + 1, processed, s =>
    if processed < dsize then
      let chunk_size := if cfg.data_bsize < dsize - processed then cfg.data_bsize
        else dsize - processed
      if chunk_size = 0 then none
      else if chunk_size ≤ s.stream.length then
        drainData cfg dsize fuel (processed + chunk_size)
          { s with dataBuf := s.stream.take chunk_size ++ s.dataBuf.drop chunk_size
                 , stream := s.stream.drop chunk_size }
      else some (dropClient { s with stream := [] })
    else some s

/-- The path-consume loop of `read_mfs_message`'s oversize branch.  The
source loop body ends in an unconditional `break`, so at most ONE chunk of
at most `path_bsize` bytes is consumed, regardless of `psize`. -/
def consumePathOnce (cfg : MfsServerCfg) (psize : Nat) (s : IOState) : IOState :=
  if 0 < psize then
    let chunk_size := if cfg.path_bsize < psize then cfg.path_bsize else psize
    if chunk_size ≤ s.stream.length then
      { s with pathBuf := s.stream.take chunk_size ++ s.pathBuf.drop chunk_size
             , stream := s.stream.drop chunk_size }
    else dropClient { s with stream := [] }
  else s

/-- `read_mfs_message`: read and decode the header, drop the client when a
size exceeds the hard limit, consume-and-error when a size exceeds a
buffer capacity, otherwise read both payloads into the shared buffers.
`none` models the divergence of the consume loop (`data_bsize = 0`). -/
def read_mfs_message (cfg : MfsServerCfg) (s : IOState) : Option (MfsMessage × IOState) :=
  if s.stream.length < 9 then
    some (empty_error_msg, send_mfs_error empty_error_msg 3 { s with stream := [] })
  else if cfg.hard_limit < (read_headers (s.stream.take 9)).psize ∨
      cfg.hard_limit < (read_headers (s.stream.take 9)).dsize then
    some (empty_error_msg, dropClient { s with stream := s.stream.drop 9 })
  else if cfg.path_bsize < (read_headers (s.stream.take 9)).psize ∨
      cfg.data_bsize < (read_headers (s.stream.take 9)).dsize then
    let s1 := consumePathOnce cfg (read_headers (s.stream.take 9)).psize
      { s with stream := s.stream.drop 9 }
    match drainData cfg (read_headers (s.stream.take 9)).dsize
        (read_headers (s.stream.take 9)).dsize 0 s1 with
    | none => none
    | some s2 => some (empty_error_msg, send_mfs_error empty_error_msg 1 s2)
  else
    let psize := (read_headers (s.stream.take 9)).psize
    let dsize := (read_headers (s.stream.take 9)).dsize
    let s0 := { s with stream := s.stream.drop 9 }
    if psize ≤ s0.stream.length then
      let s1 := { s0 with pathBuf := s0.stream.take psize ++ s0.pathBuf.drop psize
                        , stream := s0.stream.drop psize }
      if dsize ≤ s1.stream.length then
        let s2 := { s1 with dataBuf := s1.stream.take dsize ++ s1.dataBuf.drop dsize
                          , stream := s1.stream.drop dsize }
        some ({ psize := psize, dsize := dsize, op := (read_headers (s.stream.take 9)).op
              , path := some s2.pathBuf, data := some s2.dataBuf }, s2)
      else some (empty_error_msg, send_mfs_error empty_error_msg 1 { s1 with stream := [] })
    else some (empty_error_msg, send_mfs_error empty_error_msg 1 { s0 with stream := [] })

/-- `list_files`: compute `total_size` as the sum over ALL slots of the
name's string length plus one (the terminator is counted for empty slots
too).  If it fits in the data buffer, assemble the payload there (empty
names skipped) and send through `send_mfs_message`; otherwise write a
header declaring `dsize = total_size` and stream each nonempty name
followed by a zero byte. -/
def list_files (cfg : MfsServerCfg) (s : IOState) : IOState :=
  let total_size := cfg.files.foldl
    (fun acc f => acc + strlen (f.path.getD []) f.path_size + 1) 0
  if total_size ≤ cfg.data_bsize then
    let built := cfg.files.foldl
      (fun (acc : List Nat × Nat) f =>
        let str_len := strlen (f.path.getD []) f.path_size
        if str_len = 0 then acc
        else
          (acc.1.take acc.2 ++ (f.path.getD []).take str_len ++ [0]
             ++ acc.1.drop (acc.2 + str_len + 1),
           acc.2 + str_len + 1))
      (s.dataBuf, 0)
    let s1 := { s with dataBuf := built.1 }
    send_mfs_message
      { psize := 0, dsize := built.2, op := 131
      , path := some s1.pathBuf, data := some s1.dataBuf } s1
  else
    let s1 := { s with wire := s.wire ++ fill_headers 0 total_size 131 }
    cfg.files.foldl
      (fun st f =>
        let str_len := strlen (f.path.getD []) f.path_size
        if str_len = 0 then st
        else { st with wire := st.wire ++ (f.path.getD []).take str_len ++ [0] })
      s1

/-- One visit of `serve_clients` to a single client slot: the timeout
check, the availability check, one `read_mfs_message`, the sentinel check,
the deadline reset, the file lookup with its not-found gate, and the
opcode switch.  `none` propagates the consume-loop divergence. -/
def serveStep (cfg : MfsServerCfg) (now : Nat) (cl : ClientSlot) (avail : Nat)
    (s : IOState) : Option (ClientSlot × IOState) :=
  if cl.client = 0 then some (cl, s)
  else if cl.timer_end ≤ now then
    some ({ cl with client := 0 }, dropClient (send_mfs_error noop_response 3000 s))
  else if 9 ≤ avail then
    match read_mfs_message cfg s with
    | none => none
    | some (m, s1) =>
      if m.data = none ∧ m.path = none ∧ m.dsize = 0 ∧ m.psize = 0 then
        some ({ cl with client := 0 }, dropClient s1)
      else
        let cl2 := { cl with timer_end := now + cfg.timer_ms }
        let fi := get_file_index cfg.files (m.path.getD [])
          (strlen (m.path.getD []) m.psize)
        if fi = -1 ∧ ¬(m.op = OP_LS ∨ m.op = OP_NOOP) then
          some (cl2, send_mfs_error m 1000 s1)
        else if m.op = OP_ERROR then some (cl2, send_mfs_message noop_response s1)
        else if m.op = OP_LS then some (cl2, list_files cfg s1)
        else if m.op = OP_NOOP then some (cl2, send_mfs_message noop_response s1)
        else if m.op = OP_READ then
          match cfg.files[fi.toNat]? with
          | none => some (cl2, s1)
          | some f =>
            match f.reader_f with
            | none => some (cl2, recordEvent (REvent.nullHandlerCalled fi.toNat) s1)
            | some rf =>
              some (cl2, send_mfs_message (rf m) (recordEvent (REvent.readerCalled fi.toNat) s1))
        else if m.op = OP_WRITE then
          match cfg.files[fi.toNat]? with
          | none => some (cl2, s1)
          | some f =>
            match f.writer_f with
            | none => some (cl2, recordEvent (REvent.nullHandlerCalled fi.toNat) s1)
            | some wf =>
              some (cl2, send_mfs_message (wf m) (recordEvent (REvent.writerCalled fi.toNat) s1))
        else if m.op < MFS_RESERVED_OP_RANGE then
          some (cl2, send_mfs_message noop_response s1)
        else some (cl2, send_mfs_error m 3003 s1)
  else some (cl, s)

/-- The inlined empty-slot test used by the source (`register_file` checks
`path == 0 && path_size == 0`); the spec calls such a slot empty. -/
def isEmptySlot (f : MfsFile) : Bool := f.path.isNone && f.path_size == 0

/-! Concrete fixtures used to evaluate the model at specific inputs: a
registered file named "hi" (bytes 104 105, zero-terminated, buffer size 3)
whose handlers echo a fixed one-byte payload, an empty file slot, and a
small server configuration with 4-byte shared buffers and the default
hard limit and timeout. -/

def fileHi : MfsFile :=
  { path := some [104, 105, 0]
    path_size := 3
    writer_f := some (fun _ => { psize := 0, dsize := 1, op := 130, path := none, data := some [88] })
    reader_f := some (fun _ => { psize := 0, dsize := 1, op := 129, path := none, data := some [88] }) }

def fileEmpty : MfsFile :=
  { path := none, path_size := 0, writer_f := none, reader_f := none }

def smallCfg : MfsServerCfg :=
  { path_bsize := 4, data_bsize := 4, hard_limit := 10000, timer_ms := 20000, files := [] }

/-- A fresh per-client state holding `stream` as the client's pending
input, with 4-byte scratch buffers. -/
def initState (stream : List Nat) : IOState :=
  { stream := stream, wire := [], pathBuf := [0, 0, 0, 0], dataBuf := [0, 0, 0, 0]
  , dropped := false, events := [] }

end Mfs

namespace Mfs

/-! Helper lemmas shared by several claim theorems. -/

/-- Writing the error code over the first two buffer bytes and reading two
bytes back yields exactly the two code bytes, for any buffer of size at
least 2 (the `send_mfs_error` data pattern). -/
theorem take_two_set (l : List Nat) (a b c d : Nat) (h : 2 ≤ l.length) :
    ((((l.set 0 a).set 1 b).set 0 c).set 1 d).take 2 = [c, d] := by
  match l, h with
  | x :: y :: t, _ => simp [List.set]

/-- The source `memcmp` returns 0 exactly when the sizes agree and the
compared byte ranges agree. -/
theorem memcmp_eq_zero_iff (b1 b2 : List Nat) (s1 s2 : Nat) :
    memcmp b1 b2 s1 s2 = 0 ↔ s1 = s2 ∧ ∀ k < s1, b1.getD k 0 = b2.getD k 0 := by
  unfold memcmp
  split_ifs with h1 h2
  · simp [h1]
  · have hs : s1 = s2 := not_not.mp h1
    subst hs
    simp only [List.all_eq_true, List.mem_range, beq_iff_eq] at h2
    exact ⟨fun _ => ⟨rfl, h2⟩, fun _ => rfl⟩
  · have hs : s1 = s2 := not_not.mp h1
    simp only [List.all_eq_true, List.mem_range, beq_iff_eq] at h2
    simp only [OfNat.one_ne_ofNat, false_iff, not_and]
    intro _ hall
    exact h2 fun i hi => hall i hi

/-- The `strlen` scan runs to the end when no zero byte occurs among the
visited indices. -/
theorem scanNul_no_nul (path : List Nat) :
    ∀ r idx, (∀ i, idx ≤ i → i < idx + r → path.getD i 0 ≠ 0) →
      scanNul path idx r = idx + r := by
  intro r
  induction r with
  | zero => intro idx _; rfl
  | succ r ih =>
    intro idx h
    unfold scanNul
    rw [if_neg (h idx le_rfl (by omega))]
    rw [ih (idx + 1) fun i hi hlt => h i (by omega) (by omega)]
    omega

/-- `strlen` over a buffer whose scanned prefix holds no zero byte
returns 0: the scan runs to `buf_size` and the source maps that to 0. -/
theorem strlen_no_nul (path : List Nat) (psize : Nat)
    (h : ∀ i < psize, path.getD i 0 ≠ 0) : strlen path psize = 0 := by
  unfold strlen
  rw [scanNul_no_nul path psize 0 fun i _ hlt => h i (by omega)]
  simp

/-- The file-table scan only returns indices of slots that exist and whose
name compares equal to the probe (same length, same bytes). -/
theorem file_scan_spec (path : List Nat) (psize : Nat) :
    ∀ (files : List MfsFile) (start n : Nat),
      file_scan path psize files start = (n : Int) →
      start ≤ n ∧ ∃ f, files[n - start]? = some f ∧
        memcmp path (f.path.getD []) psize (strlen (f.path.getD []) f.path_size) = 0 := by
  intro files
  induction files with
  | nil =>
    intro start n h
    simp only [file_scan] at h
    omega
  | cons f rest ih =>
    intro start n h
    unfold file_scan at h
    split_ifs at h with hc
    · have hs : start = n := by exact_mod_cast h
      subst hs
      exact ⟨le_rfl, f, by simp, hc⟩
    · obtain ⟨hle, f', hf', hm⟩ := ih (start + 1) n h
      refine ⟨by omega, f', ?_, hm⟩
      have hidx : n - start = (n - (start + 1)) + 1 := by omega
      rw [hidx]
      simpa using hf'

/-- Under the data-model invariant that a populated slot has a nonempty
name, the scan with probe length 0 finds the first empty slot. -/
theorem file_scan_empty (path : List Nat) :
    ∀ (files : List MfsFile) (start : Nat),
      (∀ f ∈ files, isEmptySlot f = true ∨ strlen (f.path.getD []) f.path_size ≠ 0) →
      (∃ f ∈ files, isEmptySlot f = true) →
      file_scan path 0 files start = ((start + files.findIdx isEmptySlot : Nat) : Int) := by
  intro files
  induction files with
  | nil =>
    intro start _ hemp
    simp at hemp
  | cons f rest ih =>
    intro start hinv hemp
    by_cases he : isEmptySlot f = true
    · have hsl : strlen (f.path.getD []) f.path_size = 0 := by
        simp only [isEmptySlot, Bool.and_eq_true, Option.isNone_iff_eq_none,
          beq_iff_eq] at he
        rw [he.1, he.2]
        rfl
      unfold file_scan
      rw [if_pos (by rw [memcmp_eq_zero_iff]; exact ⟨hsl.symm, by omega⟩)]
      simp [List.findIdx_cons, he]
    · have hsl : strlen (f.path.getD []) f.path_size ≠ 0 :=
        (hinv f (List.mem_cons_self f rest)).resolve_left he
      have hemp' : ∃ f' ∈ rest, isEmptySlot f' = true := by
        obtain ⟨f', hf', hf'e⟩ := hemp
        rcases List.mem_cons.mp hf' with rfl | hmem
        · exact absurd hf'e he
        · exact ⟨f', hmem, hf'e⟩
      unfold file_scan
      rw [if_neg (by
        rw [memcmp_eq_zero_iff]
        rintro ⟨hz, -⟩
        exact hsl hz.symm)]
      rw [ih (start + 1) (fun g hg => hinv g (List.mem_cons_of_mem f hg)) hemp']
      have : (f :: rest).findIdx isEmptySlot = rest.findIdx isEmptySlot + 1 := by
        simp [List.findIdx_cons, he]
      rw [this]
      push_cast
      ring

/-! Claim theorems. -/

/-- C3 (code_bug evaluation): the header codec round trip fails on the
9-byte buffer 80 00 00 00 00 00 00 00 00.  Decoding sign-extends the
byte 0x80 of `psize`, so `read_headers` yields `psize = 0xFFFFFF80` and
re-encoding with `fill_headers` produces 80 FF FF FF … instead of the
original buffer, refuting encode∘decode = id as stated. -/
theorem c3_roundtrip_fails_eval :
    read_headers [128, 0, 0, 0, 0, 0, 0, 0, 0]
        = { psize := 4294967168, dsize := 0, op := 0 } ∧
    fill_headers (read_headers [128, 0, 0, 0, 0, 0, 0, 0, 0]).psize
        (read_headers [128, 0, 0, 0, 0, 0, 0, 0, 0]).dsize
        (read_headers [128, 0, 0, 0, 0, 0, 0, 0, 0]).op
      = [128, 255, 255, 255, 0, 0, 0, 0, 0] ∧
    ([128, 255, 255, 255, 0, 0, 0, 0, 0] : List Nat) ≠ [128, 0, 0, 0, 0, 0, 0, 0, 0] := by
  refine ⟨by decide, by decide, by decide⟩

/-- C9: `get_file_index` returns -1 whenever the probed path holds a zero
byte within its `psize` prefix, and any index it returns names an existing
slot whose stored name has string length exactly `psize` and agrees with
the probed prefix byte for byte. -/
theorem c9_get_file_index_sound (files : List MfsFile) (path : List Nat) (psize : Nat) :
    ((∃ i < psize, path.getD i 0 = 0) → get_file_index files path psize = -1) ∧
    (∀ n : Nat, get_file_index files path psize = (n : Int) →
      ∃ f, files[n]? = some f ∧
        strlen (f.path.getD []) f.path_size = psize ∧
        ∀ k < psize, path.getD k 0 = (f.path.getD []).getD k 0) := by
  constructor
  · intro ⟨i, hi, hz⟩
    unfold get_file_index
    rw [if_pos]
    simp only [List.any_eq_true, List.mem_range, beq_iff_eq]
    exact ⟨i, hi, hz⟩
  · intro n h
    unfold get_file_index at h
    split_ifs at h with hz
    obtain ⟨-, f, hf, hm⟩ := file_scan_spec path psize files 0 n h
    rw [memcmp_eq_zero_iff] at hm
    exact ⟨f, by simpa using hf, hm.1.symm, hm.2⟩

/-- C9 witness: on the table holding the single file "hi", the probe
"hi" (bytes 104 105, length 2) resolves to slot 0 with matching name, and
a probe holding an embedded zero byte is rejected with -1. -/
theorem c9_witness :
    ((∃ i < 2, ([0, 105] : List Nat).getD i 0 = 0) ∧
      get_file_index [fileHi] [0, 105] 2 = -1) ∧
    (get_file_index [fileHi] [104, 105] 2 = ((0 : Nat) : Int) ∧
      ∃ f, ([fileHi])[(0 : Nat)]? = some f ∧
        strlen (f.path.getD []) f.path_size = 2 ∧
        ∀ k < 2, ([104, 105] : List Nat).getD k 0 = (f.path.getD []).getD k 0) :=
  ⟨⟨⟨0, by decide, by decide⟩,
    (c9_get_file_index_sound [fileHi] [0, 105] 2).1 ⟨0, by decide, by decide⟩⟩,
   ⟨by decide,
    (c9_get_file_index_sound [fileHi] [104, 105] 2).2 0 (by decide)⟩⟩

/-- C7: whenever the decoded header advertises a path or data size
strictly above the hard limit, `read_mfs_message` drops the client
immediately: the sentinel is returned, the `dropped` flag is the only
state change besides consuming exactly the 9 header bytes, and in
particular nothing is written out (no error response) and no body byte is
read. -/
theorem c7_hard_limit_drop (cfg : MfsServerCfg) (s : IOState)
    (h9 : ¬ s.stream.length < 9)
    (hover : cfg.hard_limit < (read_headers (s.stream.take 9)).psize ∨
      cfg.hard_limit < (read_headers (s.stream.take 9)).dsize) :
    read_mfs_message cfg s
      = some (empty_error_msg, dropClient { s with stream := s.stream.drop 9 }) := by
  unfold read_mfs_message
  rw [if_neg h9, if_pos hover]

/-- C7 witness: a client advertising psize = 10001 (header 11 27 00 00,
dsize 0) against the default hard limit 10000 is dropped with no reply
and no bytes consumed beyond the header. -/
theorem c7_witness :
    (¬ (initState [17, 39, 0, 0, 0, 0, 0, 0, 0]).stream.length < 9) ∧
    read_mfs_message smallCfg (initState [17, 39, 0, 0, 0, 0, 0, 0, 0])
      = some (empty_error_msg,
          dropClient { initState [17, 39, 0, 0, 0, 0, 0, 0, 0] with
            stream := (initState [17, 39, 0, 0, 0, 0, 0, 0, 0]).stream.drop 9 }) :=
  ⟨by decide,
   c7_hard_limit_drop smallCfg (initState [17, 39, 0, 0, 0, 0, 0, 0, 0])
     (by decide) (by decide)⟩

/-- C10: the lookup-by-zero-length behaviour serve_clients actually
exercises.  Under the data-model invariant that every slot is either empty
(NULL name, size 0) or has a nonempty name, if the table holds an empty
slot and the request path carries no zero byte in its psize prefix, then
the source's `strlen` over the non-terminated path returns 0 and
`get_file_index` with that length resolves to the first empty slot, never
to -1. -/
theorem c10_empty_slot_lookup (files : List MfsFile) (path : List Nat) (psize : Nat)
    (hinv : ∀ f ∈ files, isEmptySlot f = true ∨ strlen (f.path.getD []) f.path_size ≠ 0)
    (hempty : ∃ f ∈ files, isEmptySlot f = true)
    (hnonul : ∀ i < psize, path.getD i 0 ≠ 0) :
    strlen path psize = 0 ∧
    get_file_index files path (strlen path psize)
      = ((files.findIdx isEmptySlot : Nat) : Int) ∧
    get_file_index files path (strlen path psize) ≠ -1 := by
  have hs0 : strlen path psize = 0 := strlen_no_nul path psize hnonul
  have hmain : get_file_index files path 0
      = ((files.findIdx isEmptySlot : Nat) : Int) := by
    unfold get_file_index
    rw [if_neg (by simp)]
    simpa using file_scan_empty path files 0 hinv hempty
  refine ⟨hs0, by rw [hs0]; exact hmain, ?_⟩
  rw [hs0, hmain]
  omega

/-- C10 witness: on the table holding "hi" followed by an empty slot, the
wire path "no" (bytes 110 111, no zero byte, psize 2) is measured by
`strlen` as 0 and `get_file_index` resolves it to slot 1, the empty
slot. -/
theorem c10_witness :
    strlen [110, 111] 2 = 0 ∧
    get_file_index [fileHi, fileEmpty] [110, 111] (strlen [110, 111] 2)
      = ((([fileHi, fileEmpty].findIdx isEmptySlot : Nat)) : Int) ∧
    get_file_index [fileHi, fileEmpty] [110, 111] (strlen [110, 111] 2) ≠ -1 :=
  c10_empty_slot_lookup [fileHi, fileEmpty] [110, 111] 2
    (by decide) (by decide) (by decide)

/-- C1 (code_bug evaluation): an oversize-within-hard-limit request
(psize 0, dsize 6 against 4-byte buffers, all 6 body bytes delivered) is
fully drained and answered with exactly one error response carrying code 1
(wire 00 00 00 00 02 00 00 00 84 01 00) — but `read_mfs_message` returns
the all-zero sentinel, `serve_clients` mistakes it for a failed read,
invokes the close callback and clears the slot, so the client does NOT
remain connected as claimed. -/
theorem c1_oversize_drops_client_eval :
    serveStep smallCfg 0 { client := 7, timer_end := 100 } 15
        (initState [0, 0, 0, 0, 6, 0, 0, 0, 2, 10, 20, 30, 40, 50, 60])
      = some ({ client := 0, timer_end := 100 },
          { stream := []
          , wire := [0, 0, 0, 0, 2, 0, 0, 0, 132, 1, 0]
          , pathBuf := [0, 0, 0, 0]
          , dataBuf := [1, 0, 30, 40]
          , dropped := true
          , events := [] }) := by decide

/-- C2 (code_bug evaluation): with the table ["hi", empty slot], a READ
request for the unknown path "no" (psize 2, no zero byte on the wire) is
NOT answered with error 1000: `strlen` over the unterminated path returns
0, the lookup resolves to the empty slot at index 1, and the dispatcher
calls that slot's NULL reader handler (undefined behaviour, recorded as
the nullHandlerCalled event) with nothing written to the wire. -/
theorem c2_null_handler_eval :
    serveStep { path_bsize := 4, data_bsize := 4, hard_limit := 10000
              , timer_ms := 20000, files := [fileHi, fileEmpty] }
        0 { client := 7, timer_end := 100 } 11
        (initState [2, 0, 0, 0, 0, 0, 0, 0, 1, 110, 111])
      = some ({ client := 7, timer_end := 20000 },
          { stream := []
          , wire := []
          , pathBuf := [110, 111, 0, 0]
          , dataBuf := [0, 0, 0, 0]
          , dropped := false
          , events := [REvent.nullHandlerCalled 1] }) := by decide

/-- C4 (code_bug evaluation): in the oversize branch (psize 6 against a
4-byte path buffer, dsize 0, all 6 path bytes delivered), the path-consume
loop exits after its first chunk because of the unconditional break: only
4 of the 6 path bytes are read and bytes 5, 6 are left on the stream when
the error response is sent, so the stream is desynchronised. -/
theorem c4_partial_path_drain_eval :
    read_mfs_message smallCfg
        (initState [6, 0, 0, 0, 0, 0, 0, 0, 2, 1, 2, 3, 4, 5, 6])
      = some (empty_error_msg,
          { stream := [5, 6]
          , wire := [0, 0, 0, 0, 2, 0, 0, 0, 132, 1, 0]
          , pathBuf := [1, 2, 3, 4]
          , dataBuf := [1, 0, 0, 0]
          , dropped := false
          , events := [] }) := by decide

/-- C5 (code_bug evaluation): LS over the table ["hi", empty slot] with a
2-byte data buffer takes the streaming path (total_size counts one
terminator per slot, empty slots included, so total_size = 4 > 2); the
header declares dsize = 4 but only the 3 body bytes 'h' 'i' 0 are
streamed, so the declared dsize differs from the bytes actually sent. -/
theorem c5_ls_dsize_mismatch_eval :
    (list_files { path_bsize := 4, data_bsize := 2, hard_limit := 10000
                , timer_ms := 20000, files := [fileHi, fileEmpty] }
        { stream := [], wire := [], pathBuf := [0, 0, 0, 0], dataBuf := [0, 0]
        , dropped := false, events := [] }).wire
      = [0, 0, 0, 0, 4, 0, 0, 0, 131, 104, 105, 0] ∧
    (read_headers (([0, 0, 0, 0, 4, 0, 0, 0, 131, 104, 105, 0] : List Nat).take 9)).dsize = 4 ∧
    (([0, 0, 0, 0, 4, 0, 0, 0, 131, 104, 105, 0] : List Nat).drop 9).length = 3 ∧
    (3 : Nat) ≠ 4 := by
  refine ⟨by decide, by decide, by decide, by decide⟩

/-- C6 counterexample: a fully read request with opcode 31 (≥ 30) whose
path "zz" resolves to no file on the full table ["hi"] is answered by the
not-found gate with error code 1000 (data bytes E8 03), not with the
error 3003 (data bytes BB 0B) the claim requires for every opcode ≥ 30;
the claim as stated is therefore false at this input. -/
theorem c6_gate_counterexample :
    serveStep { path_bsize := 4, data_bsize := 4, hard_limit := 10000
              , timer_ms := 20000, files := [fileHi] }
        0 { client := 7, timer_end := 100 } 11
        (initState [2, 0, 0, 0, 0, 0, 0, 0, 31, 122, 122])
      = some ({ client := 7, timer_end := 20000 },
          { stream := []
          , wire := [2, 0, 0, 0, 2, 0, 0, 0, 132, 122, 122, 232, 3]
          , pathBuf := [122, 122, 0, 0]
          , dataBuf := [232, 3, 0, 0]
          , dropped := false
          , events := [] }) ∧
    ([2, 0, 0, 0, 2, 0, 0, 0, 132, 122, 122, 232, 3] : List Nat)
      ≠ [2, 0, 0, 0, 2, 0, 0, 0, 132, 122, 122, 187, 11] := by
  refine ⟨by decide, by decide⟩

/-- C6 amended: the claimed dispatch holds once the file lookup succeeds
(the not-found gate intercepts these opcodes otherwise, replying 1000).
For every fully read request whose path resolves to a file index: a
reserved-range opcode (< 30, none of NOOP READ WRITE LS ERROR) is
answered with the NOOP-response, an opcode ≥ 30 with error 3003, and in
both cases the slot keeps its client with the refreshed deadline. -/
theorem c6_amended_dispatch (cfg : MfsServerCfg) (now : Nat) (cl : ClientSlot)
    (avail : Nat) (s s1 : IOState) (m : MfsMessage)
    (hcl : cl.client ≠ 0) (ht : ¬ cl.timer_end ≤ now) (hav : 9 ≤ avail)
    (hread : read_mfs_message cfg s = some (m, s1))
    (hsent : ¬(m.data = none ∧ m.path = none ∧ m.dsize = 0 ∧ m.psize = 0))
    (hfi : ¬ get_file_index cfg.files (m.path.getD [])
        (strlen (m.path.getD []) m.psize) = -1) :
    (m.op < 30 → m.op ≠ 0 → m.op ≠ 1 → m.op ≠ 2 → m.op ≠ 3 → m.op ≠ 4 →
      serveStep cfg now cl avail s
        = some ({ cl with timer_end := now + cfg.timer_ms },
            send_mfs_message noop_response s1)) ∧
    (30 ≤ m.op →
      serveStep cfg now cl avail s
        = some ({ cl with timer_end := now + cfg.timer_ms },
            send_mfs_error m 3003 s1)) := by
  constructor
  · intro h30 h0 h1 h2 h3 h4
    simp only [serveStep, hread, OP_NOOP, OP_READ, OP_WRITE, OP_LS, OP_ERROR,
      MFS_RESERVED_OP_RANGE]
    simp [hcl, ht, hav, hsent, hfi, h0, h1, h2, h3, h4, h30]
  · intro h30
    have h0 : m.op ≠ 0 := by omega
    have h1 : m.op ≠ 1 := by omega
    have h2 : m.op ≠ 2 := by omega
    have h3 : m.op ≠ 3 := by omega
    have h4 : m.op ≠ 4 := by omega
    have hlt : ¬ m.op < 30 := by omega
    simp only [serveStep, hread, OP_NOOP, OP_READ, OP_WRITE, OP_LS, OP_ERROR,
      MFS_RESERVED_OP_RANGE]
    simp [hcl, ht, hav, hsent, hfi, h0, h1, h2, h3, h4, hlt]

/-- C6 amended witness: on a table whose single slot is empty, a request
with opcode 31 and psize 0 resolves (to the empty slot) and is answered
with error 3003, the client kept with deadline 0 + 20000. -/
theorem c6_amended_witness :
    serveStep { path_bsize := 4, data_bsize := 4, hard_limit := 10000
              , timer_ms := 20000, files := [fileEmpty] }
        0 { client := 7, timer_end := 100 } 9
        (initState [0, 0, 0, 0, 0, 0, 0, 0, 31])
      = some ({ client := 7, timer_end := 20000 },
          send_mfs_error
            { psize := 0, dsize := 0, op := 31
            , path := some [0, 0, 0, 0], data := some [0, 0, 0, 0] }
            3003 (initState [])) := by
  have h := (c6_amended_dispatch
    { path_bsize := 4, data_bsize := 4, hard_limit := 10000
    , timer_ms := 20000, files := [fileEmpty] }
    0 { client := 7, timer_end := 100 } 9
    (initState [0, 0, 0, 0, 0, 0, 0, 0, 31]) (initState [])
    { psize := 0, dsize := 0, op := 31
    , path := some [0, 0, 0, 0], data := some [0, 0, 0, 0] }
    (by decide) (by decide) (by decide) (by decide) (by decide) (by decide)).2
    (by decide)
  simpa using h

/-- C8: (a) a visited slot whose deadline is at or before the tick time is
sent exactly one error response with code 3000 (wire bytes
00 00 00 00 02 00 00 00 84 B8 0B appended) and is then dropped (close
callback invoked, slot cleared); (b) every successfully read,
non-sentinel request resets the slot's deadline to now + timer_ms. -/
theorem c8_timeout_and_reset :
    (∀ (cfg : MfsServerCfg) (now : Nat) (cl : ClientSlot) (avail : Nat) (s : IOState),
      cl.client ≠ 0 → cl.timer_end ≤ now → 2 ≤ s.dataBuf.length →
      serveStep cfg now cl avail s
        = some ({ cl with client := 0 }, dropClient (send_mfs_error noop_response 3000 s)) ∧
      (dropClient (send_mfs_error noop_response 3000 s)).wire
        = s.wire ++ (fill_headers 0 2 132 ++ [184, 11]) ∧
      (dropClient (send_mfs_error noop_response 3000 s)).dropped = true) ∧
    (∀ (cfg : MfsServerCfg) (now : Nat) (cl : ClientSlot) (avail : Nat)
        (s s1 : IOState) (m : MfsMessage),
      cl.client ≠ 0 → ¬ cl.timer_end ≤ now → 9 ≤ avail →
      read_mfs_message cfg s = some (m, s1) →
      ¬(m.data = none ∧ m.path = none ∧ m.dsize = 0 ∧ m.psize = 0) →
      (serveStep cfg now cl avail s).map (fun p => p.1.timer_end)
        = some (now + cfg.timer_ms)) := by
  constructor
  · intro cfg now cl avail s hcl ht hlen
    refine ⟨?_, ?_, rfl⟩
    · unfold serveStep
      rw [if_neg hcl, if_pos ht]
    · simp only [dropClient, send_mfs_error, send_mfs_message, noop_response,
        Option.getD_some, Option.getD_none]
      rw [take_two_set s.dataBuf 0 0 (3000 % 256) (3000 / 256 % 256) hlen]
      simp [fill_headers]
  · intro cfg now cl avail s s1 m hcl ht hav hread hsent
    simp only [serveStep, hread]
    simp only [hcl, ht, hav, hsent, if_false, if_true, ite_true, ite_false]
    repeat' split
    all_goals simp

/-- C8 witness: (a) an expired slot (deadline 50 visited at time 100) gets
the error-3000 response and is dropped; (b) a NOOP request read at time 5
resets the deadline to 5 + 20000. -/
theorem c8_witness :
    (serveStep smallCfg 100 { client := 7, timer_end := 50 } 0 (initState [])
        = some ({ client := 0, timer_end := 50 },
            dropClient (send_mfs_error noop_response 3000 (initState []))) ∧
      (dropClient (send_mfs_error noop_response 3000 (initState []))).wire
        = (initState []).wire ++ (fill_headers 0 2 132 ++ [184, 11]) ∧
      (dropClient (send_mfs_error noop_response 3000 (initState []))).dropped = true) ∧
    (serveStep smallCfg 5 { client := 7, timer_end := 100 } 9
        (initState [0, 0, 0, 0, 0, 0, 0, 0, 0])).map (fun p => p.1.timer_end)
      = some (5 + smallCfg.timer_ms) :=
  ⟨c8_timeout_and_reset.1 smallCfg 100 { client := 7, timer_end := 50 } 0
      (initState []) (by decide) (by decide) (by decide),
   c8_timeout_and_reset.2 smallCfg 5 { client := 7, timer_end := 100 } 9
      (initState [0, 0, 0, 0, 0, 0, 0, 0, 0]) (initState [])
      { psize := 0, dsize := 0, op := 0
      , path := some [0, 0, 0, 0], data := some [0, 0, 0, 0] }
      (by decide) (by decide) (by decide) (by decide) (by decide)⟩

